import Mathlib

/-!
Shallow embedding of the two subsystems of the `windows-xp` repository that the
specification covers: the pointer drag coordinator / window controller
(`src/src/components/DesktopTaskbar/index.js`, which contains `DragManager`,
`stopDrag`, `handleMouseMoveForDrag` and the `DesktopWindow` class) and the chat
session controller (`src/src/components/ChatApp/index.js`).

JS numbers used for coordinates are modelled as `Int` (all arithmetic involved
is integer arithmetic: `clientX - offsetX`, `Math.min`, `Math.max`).  DOM
elements are modelled by the data they carry: the message-list render target is
the list of messages appended to it, a dropdown is its `display:block` flag.
`localStorage` is an association list.  A thrown JS exception is an
`Except.error` (or an explicit `false` flag where the partial state before the
throw matters).
-/

namespace WindowsXP

/-! ## Pointer drag coordinator and window instances

From `DesktopTaskbar/index.js`: the module-level `DragManager` object holds the
single field `currentlyDraggedInstance`; `DesktopWindow` instances carry
`isDragging`, `offsetX`, `offsetY`, `maxX`, `maxY` and their on-screen position
(`style.left` / `style.top`).  Windows are identified by their id; the global
manager references the dragged instance (here: by id). -/

structure DragWindow where
  id : Nat
  isDragging : Bool
  offsetX : Int
  offsetY : Int
  maxX : Int
  maxY : Int
  posX : Int
  posY : Int
deriving DecidableEq

structure DragSystem where
  windows : List DragWindow
  current : Option Nat
deriving DecidableEq

def findWindow (sys : DragSystem) (wid : Nat) : Option DragWindow :=
  sys.windows.find? (fun w => w.id == wid)

/-- `DesktopWindow.handleTitleBarMouseDown`: unless the mousedown target is a
title-bar button, the instance records the pointer offset and the current
screen bounds, sets its own `isDragging`, and registers itself as
`DragManager.currentlyDraggedInstance` (replacing any previous registration;
the previous instance's `isDragging` flag is not touched). -/
def handleTitleBarMouseDown (sys : DragSystem) (wid : Nat) (targetIsBtn : Bool)
    (offX offY mX mY : Int) : DragSystem :=
  if targetIsBtn then sys
  else
    { windows := sys.windows.map (fun w =>
        if w.id == wid then
          { w with isDragging := true, offsetX := offX, offsetY := offY,
                   maxX := mX, maxY := mY }
        else w),
      current := some wid }

/-- `stopDrag`: if an instance is registered, reset its dragging flag and clear
the registration. -/
def stopDrag (sys : DragSystem) : DragSystem :=
  match sys.current with
  | none => sys
  | some wid =>
      { windows := sys.windows.map (fun w =>
          if w.id == wid then { w with isDragging := false } else w),
        current := none }

/-- `handleMouseMoveForDrag(event)`: no-op unless an instance is registered and
its `isDragging` flag is set; otherwise
`newX = Math.min(clientX - offsetX, maxX - 1)`,
`newY = Math.min(Math.max(0, clientY - offsetY), maxY)` are applied to the
instance's `style.left` / `style.top`. -/
def handleMouseMoveForDrag (sys : DragSystem) (clientX clientY : Int) : DragSystem :=
  match sys.current with
  | none => sys
  | some wid =>
    match findWindow sys wid with
    | none => sys
    | some inst =>
      if inst.isDragging then
        { sys with windows := sys.windows.map (fun w =>
            if w.id == wid then
              { w with posX := min (clientX - inst.offsetX) (inst.maxX - 1),
                       posY := min (max 0 (clientY - inst.offsetY)) inst.maxY }
            else w) }
      else sys

/-- A whole pointer-move stream, folded through `handleMouseMoveForDrag`. -/
def processMoves (sys : DragSystem) (moves : List (Int × Int)) : DragSystem :=
  moves.foldl (fun s mv => handleMouseMoveForDrag s mv.1 mv.2) sys

/-! ## Dropdown menu protocol

From `DesktopWindow.handleControlPanelClick` / `toggleDropdown` /
`closeDropdown` / `closeAllDropdowns`.  A window's dropdowns are modelled by
the list of their `display === 'block'` flags (all start hidden). -/

inductive PanelClick where
  | activator (i : Nat)
  | choice (i : Nat)
  | content
  | elsewhere
deriving DecidableEq

/-- `handleControlPanelClick`: an activator click runs `toggleDropdown`
(which first closes every other dropdown, then flips its own visibility);
a choice click runs `closeDropdown` on its own dropdown; a click that is not
on a dropdown-content area runs `closeAllDropdowns`; a click on the content
area itself does nothing. -/
def handlePanelClick (dds : List Bool) (c : PanelClick) : List Bool :=
  match c with
  | PanelClick.activator i =>
      let wasOpen := dds.getD i false
      (dds.map (fun _ => false)).set i (!wasOpen)
  | PanelClick.choice i => dds.set i false
  | PanelClick.content => dds
  | PanelClick.elsewhere => dds.map (fun _ => false)

def countOpen (dds : List Bool) : Nat := (dds.filter (fun b => b)).length

/-! ## Chat session controller

From `ChatApp/index.js`.  The session state is the string stored in `_state`
(the code compares it against `'username-choice'`, `'channel-choice'` and
`'chat'` and throws on anything else).  The WebSocket is modelled by an id
(identifying the connection object) and its `readyState`; `closedIds` records
every connection id on which `close()` has been invoked, so that "the old
connection was torn down" is observable.  `messageListElement` is `none` when
the field is `null` and otherwise carries the list of messages appended to the
render target.  `localStorage` is split into the `'username'` entry and the
per-channel message-log entries (`channelStore`). -/

inductive ReadyState where
  | connecting
  | opened
  | closing
  | closedSt
deriving DecidableEq

structure Socket where
  id : Nat
  readyState : ReadyState
deriving DecidableEq

/-- A chat message as stored/rendered: `{type, data, username}` (inbound JSON
may carry more fields; only these are read by the code). -/
structure Msg where
  type : String
  data : String
  username : String
deriving DecidableEq

/-- An outbound wire message, as built by `sendMessage`. -/
structure OutMsg where
  type : String
  data : String
  username : Option String
  channel : String
  key : String
deriving DecidableEq

structure ChatApp where
  _state : String
  _username : Option String
  storedUsername : Option String
  channel : String
  messages : List Msg
  channelStore : List (String × List Msg)
  socket : Option Socket
  messageListElement : Option (List Msg)
  changeChannelDisabled : Bool
  closedIds : List Nat
  nextSocketId : Nat
deriving DecidableEq

/-- The static shared credential `apiKey` from the source. -/
def apiKey : String := "eDBE76deU7L0H9mEBgxUKVR0VCnq0XBd"

/-- JS truthiness of a nullable string: `null` and `''` are falsy. -/
def truthy (o : Option String) : Bool :=
  match o with
  | some s => s != ""
  | none => false

/-- JS `a || null` normalisation of a nullable string. -/
def truthyOpt (o : Option String) : Option String :=
  match o with
  | some s => if s = "" then none else some s
  | none => none

/-- The `username` getter: `this._username || localStorage.getItem('username') || null`. -/
def username (c : ChatApp) : Option String :=
  match truthyOpt c._username with
  | some u => some u
  | none => truthyOpt c.storedUsername

/-- The `username` setter: `null` clears both the field and the persisted
entry; `{username, rememberMe}` assigns the field and persists only when
`rememberMe` is set. -/
def setUsername (c : ChatApp) (v : Option (String × Bool)) : ChatApp :=
  match v with
  | none => { c with _username := none, storedUsername := none }
  | some (u, rememberMe) =>
      { c with _username := some u,
               storedUsername := if rememberMe then some u else c.storedUsername }

/-- `closeConnection`: closes the socket only when it exists and its
`readyState` is `OPEN`; otherwise it does nothing (a `CONNECTING` socket is
left in place, handlers attached). -/
def closeConnection (c : ChatApp) : ChatApp :=
  match c.socket with
  | some s =>
      if s.readyState = ReadyState.opened then
        { c with socket := none, closedIds := s.id :: c.closedIds }
      else c
  | none => c

/-- `connect`: creates a fresh WebSocket (initially `CONNECTING`) and registers
the handlers (handler registration itself has no observable state here). -/
def connect (c : ChatApp) : ChatApp :=
  { c with socket := some { id := c.nextSocketId, readyState := ReadyState.connecting },
           nextSocketId := c.nextSocketId + 1 }

/-- `localStorage.setItem` over the per-channel store. -/
def storeSet (st : List (String × List Msg)) (k : String) (v : List Msg) :
    List (String × List Msg) :=
  (k, v) :: st.filter (fun p => p.1 != k)

/-- `localStorage.getItem` over the per-channel store (`none` = `null`). -/
def storeGet (st : List (String × List Msg)) (k : String) : Option (List Msg) :=
  (st.find? (fun p => p.1 == k)).map (fun p => p.2)

/-- The atomic steps the `state` setter performs, in order, for trace-level
ordering statements. -/
inductive SetAction where
  | teardown
  | clearRefs
  | renderMenu (s : String)
  | connectNew
deriving DecidableEq

/-- The `state` setter together with `renderBody`.  The setter assigns
`_state`, calls `closeConnection`, nulls the render-target reference, then
renders the new state's body; the `'chat'` body ends by calling `connect()`,
and `'username-choice'` with a known username immediately re-enters the setter
with `'channel-choice'` (that recursion is at most one level deep, so fuel 2
suffices).  An unrecognized state throws `Invalid state`. -/
def setStateFuel : Nat → ChatApp → String → Except String (ChatApp × List SetAction)
  | 0, _, _ => Except.error "out of fuel"
  | fuel + 1, c, v =>
    let c1 : ChatApp := { c with _state := v }
    let c2 := closeConnection c1
    let c3 : ChatApp := { c2 with messageListElement := none }
    if v = "username-choice" then
      let c4 : ChatApp := { c3 with changeChannelDisabled := true }
      if (username c4).isSome then
        match setStateFuel fuel c4 "channel-choice" with
        | Except.ok (c', tr) =>
            Except.ok (c', SetAction.teardown :: SetAction.clearRefs :: tr)
        | Except.error e => Except.error e
      else
        Except.ok (c4, [SetAction.teardown, SetAction.clearRefs, SetAction.renderMenu v])
    else if v = "channel-choice" then
      Except.ok ({ c3 with changeChannelDisabled := true },
        [SetAction.teardown, SetAction.clearRefs, SetAction.renderMenu v])
    else if v = "chat" then
      let c4 : ChatApp := { c3 with changeChannelDisabled := false,
                                    messageListElement := some [] }
      Except.ok (connect c4,
        [SetAction.teardown, SetAction.clearRefs, SetAction.renderMenu v,
         SetAction.connectNew])
    else Except.error "Invalid state"

def setState (c : ChatApp) (v : String) : Except String (ChatApp × List SetAction) :=
  setStateFuel 2 c v

/-- `sendMessage(data)`: a logged no-op unless the socket exists and is `OPEN`;
otherwise exactly one JSON message `{type:'message', data, username, channel,
key}` is sent. -/
def sendMessage (c : ChatApp) (data : String) : ChatApp × List OutMsg :=
  match c.socket with
  | some s =>
      if s.readyState = ReadyState.opened then
        (c, [{ type := "message", data := data, username := username c,
               channel := c.channel, key := apiKey }])
      else (c, [])
  | none => (c, [])

/-- `handleMessage(event)`: heartbeats are dropped entirely; any other message
is pushed onto `messages`, the full log is re-persisted under the current
channel, and the message is appended to the render target.  If the render
target is `null` the `appendChild` throws a TypeError — but only after the push
and the persist have happened; the `false` flag records the throw. -/
def handleMessage (c : ChatApp) (m : Msg) : ChatApp × Bool :=
  if m.type = "heartbeat" then (c, true)
  else
    let msgs := c.messages ++ [m]
    let c1 : ChatApp := { c with messages := msgs,
                                 channelStore := storeSet c.channelStore c.channel msgs }
    match c1.messageListElement with
    | some l => ({ c1 with messageListElement := some (l ++ [m]) }, true)
    | none => (c1, false)

/-- The synthetic notice `handleClose` appends. -/
def disconnectNotice : Msg :=
  { type := "notification", data := "You are disconnected!", username := "The Server" }

/-- `handleClose`: push the synthetic disconnect notice, persist the log for
the current channel, then clear the in-memory log and drop the socket
reference. -/
def handleClose (c : ChatApp) : ChatApp :=
  let msgs := c.messages ++ [disconnectNotice]
  { c with messages := [],
           channelStore := storeSet c.channelStore c.channel msgs,
           socket := none }

/-- `handleOpen`: parse the persisted log for the current channel and, if one
exists, replay each stored message into `messages` and the render target, in
stored order, without re-persisting.  With a `null` render target and a
non-empty stored log, the first iteration pushes the first message and then
throws on `appendChild` (`false` flag). -/
def handleOpen (c : ChatApp) : ChatApp × Bool :=
  match storeGet c.channelStore c.channel with
  | none => (c, true)
  | some stored =>
    match c.messageListElement with
    | some l =>
        ({ c with messages := c.messages ++ stored,
                  messageListElement := some (l ++ stored) }, true)
    | none =>
      match stored with
      | [] => (c, true)
      | m :: _ => ({ c with messages := c.messages ++ [m] }, false)

/-- `FormData.get`: `null` when the field is absent. -/
def fdGet (fd : List (String × String)) (k : String) : Option String :=
  (fd.find? (fun p => p.1 == k)).map (fun p => p.2)

/-- `handleAuthFormSubmit`: guarded by JS truthiness of the `username` field
(empty string and `null` are rejected; any other string, including whitespace,
passes). -/
def handleAuthFormSubmit (c : ChatApp) (fd : List (String × String)) :
    Except String ChatApp :=
  match fdGet fd "username" with
  | some u =>
      if u = "" then Except.ok c
      else
        match setState (setUsername c (some (u, truthy (fdGet fd "remember-me"))))
            "channel-choice" with
        | Except.ok (c', _) => Except.ok c'
        | Except.error e => Except.error e
  | none => Except.ok c

/-- `handleChannelChoiceFormSubmit`: same truthiness guard on the `channel`
field; on success assigns the channel and enters the `'chat'` state. -/
def handleChannelChoiceFormSubmit (c : ChatApp) (fd : List (String × String)) :
    Except String ChatApp :=
  match fdGet fd "channel" with
  | some ch =>
      if ch = "" then Except.ok c
      else
        match setState { c with channel := ch } "chat" with
        | Except.ok (c', _) => Except.ok c'
        | Except.error e => Except.error e
  | none => Except.ok c

/-- `handleMessageFormSubmit`: same truthiness guard on the `message` field;
on success hands the text to `sendMessage` (the input-field clearing is pure
presentation). -/
def handleMessageFormSubmit (c : ChatApp) (fd : List (String × String)) :
    ChatApp × List OutMsg :=
  match fdGet fd "message" with
  | some m => if m = "" then (c, []) else sendMessage c m
  | none => (c, [])

/-- `handleSubmit`: dispatch on the submitted form's id; an unrecognized id
throws `Unhandled form submission`. -/
def handleSubmit (c : ChatApp) (formId : String) (fd : List (String × String)) :
    Except String (ChatApp × List OutMsg) :=
  if formId = "auth-form" then
    match handleAuthFormSubmit c fd with
    | Except.ok c' => Except.ok (c', [])
    | Except.error e => Except.error e
  else if formId = "channel-form" then
    match handleChannelChoiceFormSubmit c fd with
    | Except.ok c' => Except.ok (c', [])
    | Except.error e => Except.error e
  else if formId = "message-form" then
    Except.ok (handleMessageFormSubmit c fd)
  else Except.error "Unhandled form submission"

/-- Fold a whole inbound stream through `handleMessage` (each message event is
an independent event-loop task, so a throw in one handler does not stop the
later ones). -/
def processInbound (c : ChatApp) (ms : List Msg) : ChatApp :=
  ms.foldl (fun c m => (handleMessage c m).1) c

def logOk (l : List Msg) : Bool := l.all (fun m => m.type != "heartbeat")

/-- No heartbeat anywhere: not in the in-memory log, not in any persisted
channel log, not in the render target. -/
def heartbeatFree (c : ChatApp) : Bool :=
  logOk c.messages && c.channelStore.all (fun p => logOk p.2) &&
    (match c.messageListElement with
     | some l => logOk l
     | none => true)

/-! ## Concrete fixtures used by witnesses and counterexamples -/

/-- A controller in the `'chat'` state on channel `"c"`, connection open,
empty history. -/
def freshChat : ChatApp :=
  { _state := "chat", _username := some "al", storedUsername := none,
    channel := "c", messages := [], channelStore := [],
    socket := some { id := 0, readyState := ReadyState.opened },
    messageListElement := some [], changeChannelDisabled := false,
    closedIds := [], nextSocketId := 1 }

/-- A controller waiting on the username form, nothing persisted. -/
def cAuth : ChatApp :=
  { _state := "username-choice", _username := none, storedUsername := none,
    channel := "default_channel", messages := [], channelStore := [],
    socket := none, messageListElement := none, changeChannelDisabled := true,
    closedIds := [], nextSocketId := 0 }

/-- Like `freshChat` but the socket (id 5) is open. -/
def cOpen : ChatApp :=
  { freshChat with socket := some { id := 5, readyState := ReadyState.opened } }

/-- The result of `setState cOpen "channel-choice"`. -/
def cOpenAfter : ChatApp :=
  { cOpen with _state := "channel-choice", socket := none, closedIds := [5],
               messageListElement := none, changeChannelDisabled := true }

/-- Like `freshChat` but the socket (id 0) is still `CONNECTING`. -/
def cConnecting : ChatApp :=
  { freshChat with socket := some { id := 0, readyState := ReadyState.connecting } }

def m1 : Msg := { type := "message", data := "hi", username := "al" }

def m2 : Msg := { type := "message", data := "yo", username := "bob" }

def hbMsg : Msg := { type := "heartbeat", data := "", username := "" }

/-- The controller state reached in the round-trip scenario after appending
`m1`, `m2`, disconnecting and re-entering the `'chat'` state (just before the
new connection's open event replays the log). -/
def roundtripReconnected : ChatApp :=
  { freshChat with messages := [],
                   channelStore := [("c", [m1, m2, disconnectNotice])],
                   socket := some { id := 1, readyState := ReadyState.connecting },
                   nextSocketId := 2 }

/-- Two idle windows (ids 0 and 1), no drag registered. -/
def sysAB : DragSystem :=
  { windows := [{ id := 0, isDragging := false, offsetX := 0, offsetY := 0,
                  maxX := 0, maxY := 0, posX := 0, posY := 0 },
                { id := 1, isDragging := false, offsetX := 0, offsetY := 0,
                  maxX := 0, maxY := 0, posX := 0, posY := 0 }],
    current := none }

/-! ## Theorems -/

/-- C7: `send(text)` is a no-op (never queues or retries, the text is dropped)
whenever the connection is absent or not in an open state; when the connection
is open it sends exactly one outbound message of the shape
`{type:"message", data, username, channel, key}` with the static shared
credential as `key`. -/
theorem send_requires_open_socket (c : ChatApp) (data : String) :
    (c.socket = none → sendMessage c data = (c, [])) ∧
    (∀ s, c.socket = some s → s.readyState ≠ ReadyState.opened →
        sendMessage c data = (c, [])) ∧
    (∀ s, c.socket = some s → s.readyState = ReadyState.opened →
        sendMessage c data =
          (c, [{ type := "message", data := data, username := username c,
                 channel := c.channel, key := apiKey }])) := by
  refine ⟨?_, ?_, ?_⟩
  · intro h
    simp [sendMessage, h]
  · intro s hs hr
    simp [sendMessage, hs, hr]
  · intro s hs hr
    simp [sendMessage, hs, hr]

theorem send_requires_open_socket_witness :
    sendMessage freshChat "hello" =
      (freshChat, [{ type := "message", data := "hello", username := some "al",
                     channel := "c", key := apiKey }]) :=
  (send_requires_open_socket freshChat "hello").2.2
    { id := 0, readyState := ReadyState.opened } rfl rfl

/-- C10: `sendMessage` leaves the controller state — in particular the
in-memory log, the per-channel persisted store and the render target — fully
unchanged; the sender's own message is appended, persisted and rendered only
when it comes back as an inbound message through `handleMessage`. -/
theorem send_frame_and_echo (c : ChatApp) (data : String) (m : Msg) :
    (sendMessage c data).1 = c ∧
    ((sendMessage c data).1.messages = c.messages ∧
     (sendMessage c data).1.channelStore = c.channelStore ∧
     (sendMessage c data).1.messageListElement = c.messageListElement) ∧
    (m.type ≠ "heartbeat" →
      (handleMessage c m).1.messages = c.messages ++ [m] ∧
      storeGet (handleMessage c m).1.channelStore c.channel =
        some (c.messages ++ [m]) ∧
      ∀ l, c.messageListElement = some l →
        (handleMessage c m).1.messageListElement = some (l ++ [m])) := by
  have hframe : (sendMessage c data).1 = c := by
    unfold sendMessage
    cases c.socket with
    | none => rfl
    | some s =>
        by_cases hr : s.readyState = ReadyState.opened <;> simp [hr]
  refine ⟨hframe, by rw [hframe]; exact ⟨rfl, rfl, rfl⟩, ?_⟩
  intro hm
  refine ⟨?_, ?_, ?_⟩
  · simp only [handleMessage, if_neg hm]
    cases c.messageListElement <;> rfl
  · simp only [handleMessage, if_neg hm]
    cases hml : c.messageListElement <;>
      simp [storeGet, storeSet, List.find?]
  · intro l hl
    simp [handleMessage, hm, hl]

theorem send_frame_and_echo_witness :
    (sendMessage freshChat "x").1 = freshChat ∧
    (handleMessage freshChat m1).1.messages = freshChat.messages ++ [m1] ∧
    (handleMessage freshChat m1).1.messageListElement = some ([] ++ [m1]) :=
  ⟨(send_frame_and_echo freshChat "x" m1).1,
   ((send_frame_and_echo freshChat "x" m1).2.2 (by decide)).1,
   ((send_frame_and_echo freshChat "x" m1).2.2 (by decide)).2.2 [] rfl⟩

/-- C9: rendering an unrecognized session state throws `Invalid state`, and a
form submission with an unrecognized form id throws
`Unhandled form submission` — both raised immediately as programming errors. -/
theorem unrecognized_state_and_form_fatal (c : ChatApp) (v fid : String)
    (fd : List (String × String))
    (hv1 : v ≠ "username-choice") (hv2 : v ≠ "channel-choice") (hv3 : v ≠ "chat")
    (hf1 : fid ≠ "auth-form") (hf2 : fid ≠ "channel-form")
    (hf3 : fid ≠ "message-form") :
    setState c v = Except.error "Invalid state" ∧
    handleSubmit c fid fd = Except.error "Unhandled form submission" := by
  constructor
  · simp [setState, setStateFuel, hv1, hv2, hv3]
  · simp [handleSubmit, hf1, hf2, hf3]

theorem unrecognized_state_and_form_fatal_witness :
    setState freshChat "bogus" = Except.error "Invalid state" ∧
    handleSubmit freshChat "nope" [] = Except.error "Unhandled form submission" :=
  unrecognized_state_and_form_fatal freshChat "bogus" "nope" []
    (by decide) (by decide) (by decide) (by decide) (by decide) (by decide)

/-- C6 counterexample: whitespace-only submissions are not rejected.  A
username of `" "` transitions the state machine to `'channel-choice'` and
assigns the username; a channel of `" "` transitions to `'chat'` and assigns
the channel; a message of `" "` is handed to the transport. -/
theorem blank_submission_accepted_cex :
    (handleAuthFormSubmit cAuth [("username", " ")]).map
        (fun c => (c._state, c._username)) =
      Except.ok ("channel-choice", some " ") ∧
    (handleChannelChoiceFormSubmit freshChat [("channel", " ")]).map
        (fun c => (c._state, c.channel)) = Except.ok ("chat", " ") ∧
    (handleMessageFormSubmit freshChat [("message", " ")]).2 =
      [{ type := "message", data := " ", username := some "al", channel := "c",
         key := apiKey }] := by
  refine ⟨rfl, rfl, rfl⟩

/-- C6 amended: empty submissions (a missing field or the empty string — the
values JS truthiness rejects) of the username, channel and message forms cause
no state transition, no username or channel assignment and no transport send;
a whitespace-only value, however, is treated as non-empty and accepted — in
particular a whitespace-only message is passed to the transport. -/
theorem empty_submission_rejected (c : ChatApp) (fd : List (String × String)) :
    ((fdGet fd "username" = none ∨ fdGet fd "username" = some "") →
        handleAuthFormSubmit c fd = Except.ok c) ∧
    ((fdGet fd "channel" = none ∨ fdGet fd "channel" = some "") →
        handleChannelChoiceFormSubmit c fd = Except.ok c) ∧
    ((fdGet fd "message" = none ∨ fdGet fd "message" = some "") →
        handleMessageFormSubmit c fd = (c, [])) ∧
    (∀ s, fdGet fd "message" = some s → s ≠ "" →
        handleMessageFormSubmit c fd = sendMessage c s) := by
  refine ⟨?_, ?_, ?_, ?_⟩
  · rintro (h | h) <;> simp [handleAuthFormSubmit, h]
  · rintro (h | h) <;> simp [handleChannelChoiceFormSubmit, h]
  · rintro (h | h) <;> simp [handleMessageFormSubmit, h]
  · intro s hs hne
    simp [handleMessageFormSubmit, hs, hne]

theorem empty_submission_rejected_witness :
    handleAuthFormSubmit freshChat [] = Except.ok freshChat ∧
    handleChannelChoiceFormSubmit freshChat [("channel", "")] =
      Except.ok freshChat ∧
    handleMessageFormSubmit freshChat [("message", "hey")] =
      sendMessage freshChat "hey" :=
  ⟨(empty_submission_rejected freshChat []).1 (Or.inl rfl),
   (empty_submission_rejected freshChat [("channel", "")]).2.1 (Or.inr rfl),
   (empty_submission_rejected freshChat [("message", "hey")]).2.2.2 "hey" rfl
     (by decide)⟩

theorem find?_map_comm {α β : Type} (f : α → β) (p : β → Bool) (q : α → Bool)
    (l : List α) (h : ∀ a, p (f a) = q a) :
    (l.map f).find? p = (l.find? q).map f := by
  induction l with
  | nil => rfl
  | cons a t ih =>
      simp only [List.map_cons, List.find?]
      rw [h a]
      cases q a with
      | true => rfl
      | false => exact ih

/-- One pointer-move step, while `wid` is registered and dragging: the
registration survives and the window's position becomes exactly the clamped
value. -/
theorem move_step (sys : DragSystem) (wid : Nat) (inst : DragWindow)
    (cx cy : Int) (hc : sys.current = some wid)
    (hf : findWindow sys wid = some inst) (hd : inst.isDragging = true) :
    (handleMouseMoveForDrag sys cx cy).current = some wid ∧
    findWindow (handleMouseMoveForDrag sys cx cy) wid =
      some { inst with posX := min (cx - inst.offsetX) (inst.maxX - 1),
                       posY := min (max 0 (cy - inst.offsetY)) inst.maxY } := by
  have hf' : sys.windows.find? (fun w => w.id == wid) = some inst := hf
  have hid : (inst.id == wid) = true := by simpa using List.find?_some hf'
  unfold handleMouseMoveForDrag
  simp only [hc, hf, hd, if_true]
  constructor
  · trivial
  · unfold findWindow
    have hpq : ∀ w : DragWindow,
        (fun x : DragWindow => x.id == wid)
            ((fun w : DragWindow =>
              if w.id == wid then
                { w with posX := min (cx - inst.offsetX) (inst.maxX - 1),
                         posY := min (max 0 (cy - inst.offsetY)) inst.maxY }
              else w) w) = (w.id == wid) := by
      intro w
      by_cases hw : (w.id == wid) = true
      · simp [hw]
      · simp only [Bool.not_eq_true] at hw
        simp [hw]
    rw [find?_map_comm _ _ _ sys.windows hpq, hf']
    simp [hid, hd]
    intro hne
    exact absurd (by simpa using hid) hne

/-- Bounds for a whole nonempty pointer-move stream during an active drag. -/
theorem processMoves_bounds (moves : List (Int × Int)) :
    ∀ (sys : DragSystem) (wid : Nat) (inst : DragWindow) (mv0 : Int × Int),
      sys.current = some wid → findWindow sys wid = some inst →
      inst.isDragging = true → 0 ≤ inst.maxY →
      ∀ inst', findWindow (processMoves sys (mv0 :: moves)) wid = some inst' →
        inst'.posX ≤ inst.maxX - 1 ∧ 0 ≤ inst'.posY ∧ inst'.posY ≤ inst.maxY := by
  induction moves with
  | nil =>
      intro sys wid inst mv0 hc hf hd hy inst' hfind
      have hstep := (move_step sys wid inst mv0.1 mv0.2 hc hf hd).2
      have : processMoves sys [mv0] = handleMouseMoveForDrag sys mv0.1 mv0.2 := rfl
      rw [this, hstep] at hfind
      cases hfind
      refine ⟨min_le_right _ _, ?_, min_le_right _ _⟩
      exact le_min (le_max_left 0 _) hy
  | cons mv1 rest ih =>
      intro sys wid inst mv0 hc hf hd hy inst' hfind
      have hstep := move_step sys wid inst mv0.1 mv0.2 hc hf hd
      have heq : processMoves sys (mv0 :: mv1 :: rest) =
          processMoves (handleMouseMoveForDrag sys mv0.1 mv0.2) (mv1 :: rest) := rfl
      rw [heq] at hfind
      exact ih (handleMouseMoveForDrag sys mv0.1 mv0.2) wid _ mv1 hstep.1 hstep.2
        hd hy inst' hfind

/-- C2: while a drag is active, each processed pointer-move sets the dragged
window's position to `x = min(pointer.x - offset.x, maxX - 1)`,
`y = clamp(pointer.y - offset.y, 0, maxY)`; hence over any nonempty pointer-move
sequence the resulting position satisfies `x <= maxX - 1` and `0 <= y <= maxY`
(given the usual nonnegative vertical bound); with no drag registered a
pointer-move is a no-op. -/
theorem drag_move_clamps (sys : DragSystem) (wid : Nat) (inst : DragWindow)
    (cx cy : Int) (moves : List (Int × Int)) (mv0 : Int × Int)
    (hc : sys.current = some wid) (hf : findWindow sys wid = some inst)
    (hd : inst.isDragging = true) (hy : 0 ≤ inst.maxY) :
    (∀ (t : DragSystem) (a b : Int), t.current = none →
        handleMouseMoveForDrag t a b = t) ∧
    findWindow (handleMouseMoveForDrag sys cx cy) wid =
      some { inst with posX := min (cx - inst.offsetX) (inst.maxX - 1),
                       posY := min (max 0 (cy - inst.offsetY)) inst.maxY } ∧
    ∀ inst', findWindow (processMoves sys (mv0 :: moves)) wid = some inst' →
      inst'.posX ≤ inst.maxX - 1 ∧ 0 ≤ inst'.posY ∧ inst'.posY ≤ inst.maxY := by
  refine ⟨?_, (move_step sys wid inst cx cy hc hf hd).2, ?_⟩
  · intro t a b ht
    unfold handleMouseMoveForDrag
    rw [ht]
  · exact processMoves_bounds moves sys wid inst mv0 hc hf hd hy

theorem drag_move_clamps_witness :
    findWindow
        (handleMouseMoveForDrag
          { windows := [{ id := 0, isDragging := true, offsetX := 3, offsetY := 4,
                          maxX := 100, maxY := 50, posX := 0, posY := 0 }],
            current := some 0 } 250 (-7)) 0 =
      some { id := 0, isDragging := true, offsetX := 3, offsetY := 4,
             maxX := 100, maxY := 50, posX := 99, posY := 0 } :=
  (drag_move_clamps
      { windows := [{ id := 0, isDragging := true, offsetX := 3, offsetY := 4,
                      maxX := 100, maxY := 50, posX := 0, posY := 0 }],
        current := some 0 }
      0
      { id := 0, isDragging := true, offsetX := 3, offsetY := 4,
        maxX := 100, maxY := 50, posX := 0, posY := 0 }
      250 (-7) [] (0, 0) rfl rfl rfl (by decide)).2.1

/-- C5 counterexample: beginning a drag on window 1 while window 0 is still
the registered drag target replaces the registration but leaves window 0's
`isDragging` flag set — stale dragging state remains on the previously dragged
window instance. -/
theorem drag_restart_stale_flag_cex :
    (handleTitleBarMouseDown (handleTitleBarMouseDown sysAB 0 false 0 0 100 100)
        1 false 0 0 100 100).current = some 1 ∧
    (findWindow
        (handleTitleBarMouseDown (handleTitleBarMouseDown sysAB 0 false 0 0 100 100)
          1 false 0 0 100 100) 0).map (fun w => w.isDragging) = some true := by
  exact ⟨rfl, rfl⟩

/-- C5 amended: the drag coordinator is a single nullable registration, so at
most one drag target exists at any instant, `stopDrag` always clears it, and
beginning a new drag for one window replaces any prior registration — but the
previously dragged window instance is left untouched (in particular its
`isDragging` flag is not reset). -/
theorem begin_drag_replaces_target (sys : DragSystem) (wid : Nat)
    (oX oY mX mY : Int) :
    (handleTitleBarMouseDown sys wid false oX oY mX mY).current = some wid ∧
    (stopDrag sys).current = none ∧
    ∀ w, w ∈ sys.windows → (w.id == wid) = false →
      w ∈ (handleTitleBarMouseDown sys wid false oX oY mX mY).windows := by
  refine ⟨rfl, ?_, ?_⟩
  · unfold stopDrag
    cases hcur : sys.current with
    | none => rw [hcur]
    | some wid2 => rfl
  · intro w hw hne
    unfold handleTitleBarMouseDown
    simp only [if_neg (by exact Bool.false_ne_true)]
    exact List.mem_map.2 ⟨w, hw, by simp [hne]⟩

theorem begin_drag_replaces_target_witness :
    (handleTitleBarMouseDown sysAB 1 false 0 0 100 100).current = some 1 ∧
    (stopDrag sysAB).current = none ∧
    ({ id := 0, isDragging := false, offsetX := 0, offsetY := 0,
       maxX := 0, maxY := 0, posX := 0, posY := 0 } : DragWindow) ∈
      (handleTitleBarMouseDown sysAB 1 false 0 0 100 100).windows :=
  ⟨(begin_drag_replaces_target sysAB 1 0 0 100 100).1,
   (begin_drag_replaces_target sysAB 1 0 0 100 100).2.1,
   (begin_drag_replaces_target sysAB 1 0 0 100 100).2.2 _ (by decide) (by decide)⟩

theorem all_filter_of_all {α : Type} (p q : α → Bool) (l : List α)
    (h : l.all p = true) : (l.filter q).all p = true := by
  rw [List.all_eq_true] at h ⊢
  intro x hx
  exact h x (List.mem_filter.1 hx).1

theorem logOk_append (l : List Msg) (m : Msg) (hl : logOk l = true)
    (hm : m.type ≠ "heartbeat") : logOk (l ++ [m]) = true := by
  simp only [logOk, List.all_append, List.all_cons, List.all_nil,
    Bool.and_eq_true] at hl ⊢
  exact ⟨hl, by simpa using hm, trivial⟩

/-- One inbound message preserves heartbeat-freeness of log, store and render
target. -/
theorem heartbeatFree_step (c : ChatApp) (m : Msg) (h : heartbeatFree c = true) :
    heartbeatFree (handleMessage c m).1 = true := by
  by_cases hm : m.type = "heartbeat"
  · simpa [handleMessage, hm] using h
  · simp only [heartbeatFree, Bool.and_eq_true] at h
    obtain ⟨⟨hmsgs, hstore⟩, hrender⟩ := h
    have hmsgs' : logOk (c.messages ++ [m]) = true := logOk_append _ _ hmsgs hm
    have hstore' :
        (storeSet c.channelStore c.channel (c.messages ++ [m])).all
          (fun p => logOk p.2) = true := by
      simp only [storeSet, List.all_cons, Bool.and_eq_true]
      exact ⟨hmsgs', all_filter_of_all _ _ _ hstore⟩
    simp only [handleMessage, if_neg hm]
    cases hml : c.messageListElement with
    | none =>
        simp only [heartbeatFree, hml, Bool.and_eq_true]
        exact ⟨⟨hmsgs', hstore'⟩, trivial⟩
    | some l =>
        rw [hml] at hrender
        simp only [heartbeatFree, hml, Bool.and_eq_true]
        exact ⟨⟨hmsgs', hstore'⟩, logOk_append _ _ hrender hm⟩

theorem heartbeatFree_processInbound (ms : List Msg) :
    ∀ c : ChatApp, heartbeatFree c = true →
      heartbeatFree (processInbound c ms) = true := by
  induction ms with
  | nil => intro c h; exact h
  | cons m rest ih =>
      intro c h
      exact ih (handleMessage c m).1 (heartbeatFree_step c m h)

/-- C4: over any sequence of inbound messages, no heartbeat is ever appended
to the in-memory log, persisted to the per-channel store, or appended to the
render target (heartbeat-freeness is preserved and a heartbeat is a strict
no-op), while every message of any other type is appended to the log, the full
updated log is re-persisted for the current channel, and the message is
rendered. -/
theorem heartbeat_never_stored (c : ChatApp) (ms : List Msg) (m : Msg) :
    (heartbeatFree c = true → heartbeatFree (processInbound c ms) = true) ∧
    (m.type = "heartbeat" → handleMessage c m = (c, true)) ∧
    (m.type ≠ "heartbeat" →
      (handleMessage c m).1.messages = c.messages ++ [m] ∧
      storeGet (handleMessage c m).1.channelStore c.channel =
        some (c.messages ++ [m]) ∧
      ∀ l, c.messageListElement = some l →
        (handleMessage c m).1.messageListElement = some (l ++ [m])) := by
  refine ⟨heartbeatFree_processInbound ms c, ?_, ?_⟩
  · intro hm
    simp [handleMessage, hm]
  · intro hm
    refine ⟨?_, ?_, ?_⟩
    · simp only [handleMessage, if_neg hm]
      cases c.messageListElement <;> rfl
    · simp only [handleMessage, if_neg hm]
      cases hml : c.messageListElement <;>
        simp [storeGet, storeSet, List.find?]
    · intro l hl
      simp [handleMessage, hm, hl]

theorem heartbeat_never_stored_witness :
    heartbeatFree (processInbound freshChat [hbMsg, m1]) = true ∧
    handleMessage freshChat hbMsg = (freshChat, true) ∧
    (handleMessage freshChat m1).1.messages = freshChat.messages ++ [m1] :=
  ⟨(heartbeat_never_stored freshChat [hbMsg, m1] hbMsg).1 (by decide),
   (heartbeat_never_stored freshChat [hbMsg, m1] hbMsg).2.1 rfl,
   ((heartbeat_never_stored freshChat [hbMsg, m1] m1).2.2 (by decide)).1⟩

theorem countOpen_cons (a : Bool) (t : List Bool) :
    countOpen (a :: t) = (if a then 1 else 0) + countOpen t := by
  cases a <;> simp [countOpen, List.filter_cons, Nat.add_comm]

theorem countOpen_map_false (l : List Bool) :
    countOpen (l.map (fun _ => false)) = 0 := by
  induction l with
  | nil => rfl
  | cons a t ih => simpa [countOpen_cons] using ih

theorem countOpen_replicate_false (n : Nat) :
    countOpen (List.replicate n false) = 0 := by
  induction n with
  | zero => rfl
  | succ k ih => simpa [List.replicate_succ, countOpen_cons] using ih

theorem countOpen_set_of_zero (l : List Bool) :
    ∀ (i : Nat) (b : Bool), countOpen l = 0 → countOpen (l.set i b) ≤ 1 := by
  induction l with
  | nil => intro i b _; simp [countOpen]
  | cons a t ih =>
      intro i b h
      rw [countOpen_cons] at h
      have ha : a = false := by
        cases a
        · rfl
        · simp at h
      have ht : countOpen t = 0 := by
        cases a <;> simp_all
      cases i with
      | zero =>
          rw [List.set_cons_zero, countOpen_cons, ht]
          cases b <;> simp
      | succ k =>
          rw [List.set_cons_succ, countOpen_cons, ha]
          simpa using ih k b ht

theorem countOpen_set_false_le (l : List Bool) :
    ∀ i : Nat, countOpen (l.set i false) ≤ countOpen l := by
  induction l with
  | nil => intro i; exact Nat.le_refl _
  | cons a t ih =>
      intro i
      cases i with
      | zero =>
          rw [List.set_cons_zero, countOpen_cons, countOpen_cons]
          cases a <;> simp
      | succ k =>
          rw [List.set_cons_succ, countOpen_cons, countOpen_cons]
          exact Nat.add_le_add_left (ih k) _

/-- Each control-panel click preserves "at most one dropdown open". -/
theorem panel_step_inv (dds : List Bool) (c : PanelClick)
    (h : countOpen dds ≤ 1) : countOpen (handlePanelClick dds c) ≤ 1 := by
  cases c with
  | activator i =>
      exact countOpen_set_of_zero _ i _ (countOpen_map_false dds)
  | choice i => exact Nat.le_trans (countOpen_set_false_le dds i) h
  | content => exact h
  | elsewhere => simp [handlePanelClick, countOpen_map_false, countOpen_replicate_false]

theorem panel_fold_inv (cs : List PanelClick) :
    ∀ dds : List Bool, countOpen dds ≤ 1 →
      countOpen (cs.foldl handlePanelClick dds) ≤ 1 := by
  induction cs with
  | nil => intro dds h; exact h
  | cons c rest ih =>
      intro dds h
      exact ih (handlePanelClick dds c) (panel_step_inv dds c h)

theorem getD_set_self (l : List Bool) :
    ∀ (i : Nat) (b : Bool), i < l.length → (l.set i b).getD i false = b := by
  induction l with
  | nil => intro i b h; exact absurd h (Nat.not_lt_zero i)
  | cons a t ih =>
      intro i b h
      cases i with
      | zero => rfl
      | succ k => exact ih k b (Nat.lt_of_succ_lt_succ h)

theorem getD_set_other (l : List Bool) :
    ∀ (i j : Nat) (b : Bool), j ≠ i → (l.set i b).getD j false = l.getD j false := by
  induction l with
  | nil => intro i j b _; cases i <;> rfl
  | cons a t ih =>
      intro i j b hij
      cases i with
      | zero =>
          cases j with
          | zero => exact absurd rfl hij
          | succ k => rfl
      | succ k =>
          cases j with
          | zero => rfl
          | succ k2 =>
              have : k2 ≠ k := fun he => hij (by rw [he])
              exact ih k k2 b this

theorem getD_map_false (l : List Bool) :
    ∀ k : Nat, (l.map (fun _ => false)).getD k false = false := by
  induction l with
  | nil => intro k; cases k <;> rfl
  | cons a t ih =>
      intro k
      cases k with
      | zero => rfl
      | succ k2 => exact ih k2

theorem getD_false_of_len_le (l : List Bool) :
    ∀ k : Nat, l.length ≤ k → l.getD k false = false := by
  induction l with
  | nil => intro k _; cases k <;> rfl
  | cons a t ih =>
      intro k hk
      cases k with
      | zero => exact absurd hk (by simp)
      | succ k2 => exact ih k2 (Nat.le_of_succ_le_succ hk)

/-- C8: per window, at most one dropdown is ever open across any click
sequence starting from the all-closed initial render; an activator click
toggles its own dropdown and force-closes every sibling, a choice click closes
its own dropdown, a click elsewhere in the panel closes all dropdowns (and a
click on an open content area changes nothing). -/
theorem dropdown_at_most_one_open (cs : List PanelClick) (n : Nat)
    (dds : List Bool) (i j : Nat) (hi : i < dds.length) (hij : j ≠ i) :
    countOpen (cs.foldl handlePanelClick (List.replicate n false)) ≤ 1 ∧
    (handlePanelClick dds (PanelClick.activator i)).getD i false =
      !(dds.getD i false) ∧
    (handlePanelClick dds (PanelClick.activator i)).getD j false = false ∧
    (handlePanelClick dds (PanelClick.choice i)).getD i false = false ∧
    (∀ k, (handlePanelClick dds PanelClick.elsewhere).getD k false = false) ∧
    handlePanelClick dds PanelClick.content = dds := by
  refine ⟨?_, ?_, ?_, ?_, ?_, rfl⟩
  · exact panel_fold_inv cs _ (by simp [countOpen_replicate_false])
  · show ((dds.map (fun _ => false)).set i (!dds.getD i false)).getD i false = _
    exact getD_set_self _ i _ (by simpa using hi)
  · show ((dds.map (fun _ => false)).set i (!dds.getD i false)).getD j false = _
    rw [getD_set_other _ i j _ hij]
    exact getD_map_false dds j
  · show (dds.set i false).getD i false = false
    by_cases hlen : i < dds.length
    · exact getD_set_self dds i false hlen
    · rw [getD_false_of_len_le]
      simpa using Nat.le_of_not_lt hlen
  · intro k
    exact getD_map_false dds k

theorem dropdown_at_most_one_open_witness :
    countOpen ([PanelClick.activator 0].foldl handlePanelClick
      (List.replicate 2 false)) ≤ 1 ∧
    (handlePanelClick [false, true] (PanelClick.activator 0)).getD 0 false =
      !(([false, true] : List Bool).getD 0 false) ∧
    (handlePanelClick [false, true] (PanelClick.activator 0)).getD 1 false =
      false :=
  ⟨(dropdown_at_most_one_open [PanelClick.activator 0] 2 [false, true] 0 1
      (by decide) (by decide)).1,
   (dropdown_at_most_one_open [PanelClick.activator 0] 2 [false, true] 0 1
      (by decide) (by decide)).2.1,
   (dropdown_at_most_one_open [PanelClick.activator 0] 2 [false, true] 0 1
      (by decide) (by decide)).2.2.1⟩

/-- Every successful run of the `state` setter emits the teardown call first
and the render-target clearing second, before anything else. -/
theorem setStateFuel_trace (fuel : Nat) (c : ChatApp) (v : String)
    (r : ChatApp × List SetAction) (h : setStateFuel fuel c v = Except.ok r) :
    ∃ rest, r.2 = SetAction.teardown :: SetAction.clearRefs :: rest := by
  cases fuel with
  | zero => simp [setStateFuel] at h
  | succ f =>
      simp only [setStateFuel] at h
      split at h
      · split at h
        · split at h
          · cases h
            exact ⟨_, rfl⟩
          · simp at h
        · cases h
          exact ⟨_, rfl⟩
      · split at h
        · cases h
          exact ⟨_, rfl⟩
        · split at h
          · cases h
            exact ⟨_, rfl⟩
          · simp at h

/-- `closeConnection` never removes an id from `closedIds`. -/
theorem closeConnection_closedIds_mono (c : ChatApp) (x : Nat)
    (hx : x ∈ c.closedIds) : x ∈ (closeConnection c).closedIds := by
  unfold closeConnection
  cases c.socket with
  | none => exact hx
  | some s =>
      by_cases hr : s.readyState = ReadyState.opened
      · simp only [if_pos hr]
        exact List.mem_cons_of_mem _ hx
      · simp only [if_neg hr]
        exact hx

/-- Every id closed by the setter's initial teardown is still recorded as
closed in the setter's final state (also across the auto-skip recursion). -/
theorem setStateFuel_closedIds (fuel : Nat) :
    ∀ (c : ChatApp) (v : String) (r : ChatApp × List SetAction),
      setStateFuel fuel c v = Except.ok r →
      ∀ x, x ∈ (closeConnection { c with _state := v }).closedIds →
        x ∈ r.1.closedIds := by
  induction fuel with
  | zero => intro c v r h; simp [setStateFuel] at h
  | succ f ih =>
      intro c v r h x hx
      simp only [setStateFuel] at h
      split at h
      · split at h
        · split at h
          · rename_i heq
            cases h
            exact ih _ _ _ heq x (closeConnection_closedIds_mono _ x hx)
          · simp at h
        · cases h
          exact hx
      · split at h
        · cases h
          exact hx
        · split at h
          · cases h
            exact hx
          · simp at h

/-- C1 amended: every state transition invokes the connection teardown first
and clears the render-target reference second, before rendering the new
state's body or establishing any new connection; when the existing connection
is in the open state, the teardown does close it (its id is recorded closed in
the post-transition state).  The unamended claim fails for a connection still
in the `CONNECTING` state, which the teardown leaves un-closed. -/
theorem chat_transition_teardown_order (c : ChatApp) (v : String) (c' : ChatApp)
    (tr : List SetAction) (s : Socket)
    (h : setState c v = Except.ok (c', tr)) :
    (∃ rest, tr = SetAction.teardown :: SetAction.clearRefs :: rest) ∧
    (c.socket = some s → s.readyState = ReadyState.opened →
      s.id ∈ c'.closedIds) := by
  constructor
  · exact setStateFuel_trace 2 c v (c', tr) h
  · intro hs hr
    have hmem : s.id ∈ (closeConnection { c with _state := v }).closedIds := by
      unfold closeConnection
      have : ({ c with _state := v } : ChatApp).socket = some s := hs
      rw [this]
      simp only [if_pos hr]
      exact List.mem_cons_self _ _
    exact setStateFuel_closedIds 2 c v (c', tr) h s.id hmem

theorem chat_transition_teardown_order_witness :
    (∃ rest, [SetAction.teardown, SetAction.clearRefs,
        SetAction.renderMenu "channel-choice"] =
      SetAction.teardown :: SetAction.clearRefs :: rest) ∧
    (5 : Nat) ∈ cOpenAfter.closedIds := by
  have h := chat_transition_teardown_order cOpen "channel-choice" cOpenAfter
    [SetAction.teardown, SetAction.clearRefs,
     SetAction.renderMenu "channel-choice"]
    { id := 5, readyState := ReadyState.opened } rfl
  exact ⟨h.1, h.2 rfl rfl⟩

/-- C1 counterexample: transitioning to `'chat'` while the existing connection
(id 0) is still `CONNECTING` establishes a new connection (id 1) without ever
having closed the old one (`closedIds` stays empty), so the old connection's
handlers can still fire against the new state. -/
theorem chat_transition_leaves_connecting_socket_cex :
    cConnecting.socket =
      some { id := 0, readyState := ReadyState.connecting } ∧
    (setState cConnecting "chat").map
        (fun p => (p.1.closedIds, p.1.socket)) =
      Except.ok ([], some { id := 1, readyState := ReadyState.connecting }) := by
  exact ⟨rfl, rfl⟩

/-- C3: appending two non-heartbeat messages to channel `"c"`, disconnecting
(which appends the synthetic disconnect notice, persists, clears the in-memory
log and drops the connection), then re-entering the `'chat'` state and
receiving the open event replays the persisted log into the fresh render
target in stored order `[m1, m2, disconnect-notice]` without re-persisting,
and the in-memory log afterwards contains exactly the persisted entries. -/
theorem chat_reconnect_replay_roundtrip (a b : Msg)
    (ha : a.type ≠ "heartbeat") (hb : b.type ≠ "heartbeat") :
    (setState (handleClose (handleMessage (handleMessage freshChat a).1 b).1)
        "chat").isOk = true ∧
    ∀ c4 tr,
      setState (handleClose (handleMessage (handleMessage freshChat a).1 b).1)
          "chat" = Except.ok (c4, tr) →
      (handleOpen c4).2 = true ∧
      (handleOpen c4).1.messageListElement = some [a, b, disconnectNotice] ∧
      (handleOpen c4).1.messages = [a, b, disconnectNotice] ∧
      storeGet (handleOpen c4).1.channelStore "c" =
        some [a, b, disconnectNotice] ∧
      (handleOpen c4).1.channelStore = c4.channelStore := by
  have hmid : handleClose (handleMessage (handleMessage freshChat a).1 b).1 =
      { _state := "chat", _username := some "al", storedUsername := none,
        channel := "c", messages := [],
        channelStore := [("c", [a, b, disconnectNotice])],
        socket := none, messageListElement := some [a, b],
        changeChannelDisabled := false, closedIds := [], nextSocketId := 1 } := by
    simp [handleMessage, handleClose, storeSet, freshChat, ha, hb]
  rw [hmid]
  constructor
  · rfl
  · intro c4 tr h
    have hset :
        setState
          ({ _state := "chat", _username := some "al", storedUsername := none,
             channel := "c", messages := [],
             channelStore := [("c", [a, b, disconnectNotice])],
             socket := none, messageListElement := some [a, b],
             changeChannelDisabled := false, closedIds := [],
             nextSocketId := 1 } : ChatApp) "chat" =
        Except.ok
          ({ _state := "chat", _username := some "al", storedUsername := none,
             channel := "c", messages := [],
             channelStore := [("c", [a, b, disconnectNotice])],
             socket := some { id := 1, readyState := ReadyState.connecting },
             messageListElement := some [],
             changeChannelDisabled := false, closedIds := [],
             nextSocketId := 2 },
           [SetAction.teardown, SetAction.clearRefs,
            SetAction.renderMenu "chat", SetAction.connectNew]) := rfl
    rw [hset] at h
    cases h
    exact ⟨rfl, rfl, rfl, rfl, rfl⟩

theorem chat_reconnect_replay_roundtrip_witness :
    (handleOpen roundtripReconnected).1.messages =
      [m1, m2, disconnectNotice] ∧
    (handleOpen roundtripReconnected).1.messageListElement =
      some [m1, m2, disconnectNotice] ∧
    (handleOpen roundtripReconnected).1.channelStore =
      roundtripReconnected.channelStore := by
  have h := (chat_reconnect_replay_roundtrip m1 m2 (by decide) (by decide)).2
    roundtripReconnected
    [SetAction.teardown, SetAction.clearRefs,
     SetAction.renderMenu "chat", SetAction.connectNew] rfl
  exact ⟨h.2.2.1, h.2.1, h.2.2.2.2⟩

end WindowsXP
